import Mathlib

/-!
Verification of the PicoH three-tier memory hierarchy (src/mian.py,
src/lib/EEPROM.py, src/lib/Sensor.py).

Shallow embedding conventions:
* Python floats are modelled by their IEEE-754 binary32 bit patterns
  (`Val := Nat`, value < 2^32): the only float operations the core performs
  are packing/unpacking to 4 bytes (`struct.pack('f', v)` on a little-endian
  RP2040), the NaN test, and the `> 0` test in `read_temperature`, all of
  which are exact functions of the bit pattern.
* The EEPROM medium is a total function from byte address to byte value;
  the I2C transport of src/lib/EEPROM.py is assumed failure-free (the
  `try/except` in `read_last_value` therefore never fires in the model).
* `utime.ticks_ms()` is modelled by an explicit `now : Nat` parameter per
  top-level operation (all ticks calls inside one operation read the same
  instant); `utime.ticks_diff(a, b)` is exact integer subtraction.
* The Python dict `cache` is an ordered association list with Python dict
  semantics: assignment to an existing key updates it in place, assignment
  to a new key appends, `min(cache.items(), key=...)` returns the first
  item with minimal key value, `del` removes the (unique) entry.
* Exceptions the code can raise on its happy-path inputs are modelled by
  an explicit error result (`RdRes.err`): `struct.pack('f', None)` raises
  a TypeError, and `eeprom_ttl[addr]` raises a KeyError when the shadow
  record is absent.
-/

namespace PicoH

/-- A Python float, modelled by its IEEE-754 binary32 bit pattern. -/
abbrev Val := Nat

/-- struct.pack('f', v): the 4 little-endian bytes of the binary32 pattern
(src/lib/EEPROM.py line 33). -/
def pack (v : Val) : List Nat :=
  [v % 256, v / 256 % 256, v / 65536 % 256, v / 16777216 % 256]

/-- struct.unpack('f', raw): reassemble the bit pattern from 4 bytes
(src/lib/EEPROM.py line 69). -/
def unpack (b : List Nat) : Val :=
  b.getD 0 0 + 256 * b.getD 1 0 + 65536 * b.getD 2 0 + 16777216 * b.getD 3 0

/-- math.isnan on a binary32 pattern: exponent all ones and mantissa nonzero
(src/mian.py line 163). -/
def isNaNb (v : Val) : Bool :=
  v / 8388608 % 256 == 255 && v % 8388608 != 0

/-- IEEE-754 `v > 0.0` on a binary32 pattern: sign bit clear, pattern nonzero
and not a NaN (the comparison in src/mian.py line 63). -/
def floatGt0 (v : Val) : Bool :=
  decide (0 < v) && decide (v < 2147483648) && !(isNaNb v)

/-- The three sensor channels ADDR_TEMP, ADDR_MQ2, ADDR_MQ7
(src/mian.py lines 30-33). -/
inductive Addr
  | temp
  | mq2
  | mq7
deriving DecidableEq, Repr

/-- NAME_MAP (src/mian.py lines 34-38). -/
def NAME_MAP : Addr → String
  | .temp => "TEMP"
  | .mq2 => "MQII"
  | .mq7 => "MQIV"

/-- EEPROM_SLOTS: the 4 page numbers per channel (src/mian.py lines 41-45). -/
def EEPROM_SLOTS : Addr → List Nat
  | .temp => [84, 85, 86, 87]
  | .mq2 => [0, 1, 2, 3]
  | .mq7 => [42, 43, 44, 45]

/-- PAGE_SIZE (src/lib/EEPROM.py line 9). -/
def PAGE_SIZE : Nat := 32

/-- TTL_MS (src/mian.py line 51). -/
def TTL_MS : Int := 600

/-- CACHE_SIZE (src/mian.py line 50). -/
def CACHE_SIZE : Nat := 2

/-- utime.ticks_diff on a monotonic clock: exact difference. -/
def ticks_diff (a b : Nat) : Int := (a : Int) - (b : Int)

/-- The byte-addressable EEPROM medium. -/
abbrev Medium := Nat → Nat

/-- One single-byte I2C write (src/lib/EEPROM.py lines 22-28). -/
def writeByte (m : Medium) (a b : Nat) : Medium :=
  fun x => if x = a then b else m x

/-- eeprom_write_bytes: consecutive single-byte writes starting at `addr`
(src/lib/EEPROM.py lines 22-28). -/
def eeprom_write_bytes (m : Medium) (addr : Nat) : List Nat → Medium
  | [] => m
  | b :: rest => eeprom_write_bytes (writeByte m addr b) (addr + 1) rest

/-- write_to_eeprom: pack the float and write its 4 bytes at
`page_num * PAGE_SIZE + offset` (src/lib/EEPROM.py lines 30-39; the returned
page/offset pair is ignored by every caller in src/mian.py, so it is not
modelled). -/
def write_to_eeprom (m : Medium) (page_num offset : Nat) (v : Val) : Medium :=
  eeprom_write_bytes m (page_num * PAGE_SIZE + offset) (pack v)

/-- The byte address written for channel `a`, slot `i`: write_to_eeprom is
called with page EEPROM_SLOTS[a][i] and byte offset i (src/mian.py lines
85 and 90-92, src/lib/EEPROM.py line 32). -/
def writeSlotAddr (a : Addr) (i : Nat) : Nat :=
  (EEPROM_SLOTS a).getD i 0 * PAGE_SIZE + i

/-- The base page read_last_value uses per sensor-type name
(src/lib/EEPROM.py lines 54-61). -/
def basePageOf (name : String) : Option Nat :=
  if name = "MQII" then some 0
  else if name = "MQIV" then some 42
  else if name = "TEMP" then some 84
  else none

/-- The byte address read for channel `a`, slot `i`: read_last_value computes
`base_page * PAGE_SIZE + offset * 4` (src/lib/EEPROM.py lines 54-59). -/
def readSlotAddr (a : Addr) (i : Nat) : Nat :=
  (basePageOf (NAME_MAP a)).getD 0 * PAGE_SIZE + i * 4

/-- A contiguous 4-byte read, `i2c.readfrom(EEPROM_ADDR, 4)`
(src/lib/EEPROM.py line 67). -/
def read4 (m : Medium) (a : Nat) : List Nat :=
  [m a, m (a + 1), m (a + 2), m (a + 3)]

/-- read_last_value (src/lib/EEPROM.py lines 52-72): dispatch on the sensor
name, read 4 bytes at `base_page * 32 + offset * 4`, return none on the
all-0xFF (erased) or all-0x00 (cleared) sentinel, else decode. -/
def read_last_value (m : Medium) (name : String) (offset : Nat) : Option Val :=
  match basePageOf name with
  | none => none
  | some p =>
    let addr := p * PAGE_SIZE + offset * 4
    let raw := read4 m addr
    if raw = [255, 255, 255, 255] ∨ raw = [0, 0, 0, 0] then none
    else some (unpack raw)

/-- One entry of eeprom_ttl: {"timestamp": ..., "value": ...}
(src/mian.py lines 96-99). -/
structure Shadow where
  timestamp : Nat
  value : Val
deriving DecidableEq, Repr

/-- One entry of the cache dict: {'value': ..., 'last_used': ...}
(src/mian.py line 107). -/
structure CEntry where
  value : Val
  last_used : Nat
deriving DecidableEq, Repr

/-- The cache dict, as an ordered association list (Python dict order). -/
abbrev CacheL := List (Addr × CEntry)

/-- Dict lookup `cache.get(addr)` / `addr in cache`. -/
def cacheLookup : CacheL → Addr → Option CEntry
  | [], _ => none
  | (b, e) :: r, a => if b = a then some e else cacheLookup r a

/-- Dict assignment `cache[addr] = entry`: update in place if the key exists,
else append. -/
def setEntry : CacheL → Addr → CEntry → CacheL
  | [], a, e => [(a, e)]
  | (b, e0) :: r, a, e => if b = a then (a, e) :: r else (b, e0) :: setEntry r a e

/-- Dict deletion `del cache[a]`: remove the first (unique) entry for `a`. -/
def eraseKey : CacheL → Addr → CacheL
  | [], _ => []
  | (b, e) :: r, a => if b = a then r else (b, e) :: eraseKey r a

/-- The fold performed by `min(cache.items(), key=lambda x: x[1]['last_used'])`:
Python's min keeps the first item among ties, replacing only on a strictly
smaller key. -/
def oldestFold (x : Addr × CEntry) : CacheL → Addr × CEntry
  | [] => x
  | y :: ys => oldestFold (if y.2.last_used < x.2.last_used then y else x) ys

/-- `min(cache.items(), key=lambda x: x[1]['last_used'])` (src/mian.py
line 105), none on an empty dict (where Python min would raise). -/
def oldestItem : CacheL → Option (Addr × CEntry)
  | [] => none
  | x :: xs => some (oldestFold x xs)

/-- update_cache (src/mian.py lines 103-107): evict the min-last_used entry
whenever the dict holds at least CACHE_SIZE entries, then assign the new
entry with last_used = now. -/
def update_cache (c : CacheL) (a : Addr) (v : Val) (now : Nat) : CacheL :=
  let c1 :=
    if CACHE_SIZE ≤ c.length then
      match oldestItem c with
      | some o => eraseKey c o.1
      | none => c
    else c
  setEntry c1 a ⟨v, now⟩

/-- check_ttl (src/mian.py lines 109-112): delete the entry if it exists and
`ticks_diff(now, last_used) > TTL_MS`. -/
def check_ttl (c : CacheL) (a : Addr) (now : Nat) : CacheL :=
  match cacheLookup c a with
  | some e => if TTL_MS < ticks_diff now e.last_used then eraseKey c a else c
  | none => c

/-- The whole mutable state of src/mian.py: the EEPROM medium,
write_pointers, eeprom_ttl, cache, and the three hit counters. -/
structure Sys where
  medium : Medium
  wp : Addr → Nat
  shadow : Addr → Option Shadow
  cache : CacheL
  total_access : Nat
  cache_hits : Nat
  eeprom_hits : Nat

/-- The staleness test of eeprom_write (src/mian.py lines 82-83): a shadow
record exists for the channel and `ticks_diff(now, timestamp) > TTL_MS`. -/
def shadowStale (s : Sys) (a : Addr) (now : Nat) : Bool :=
  match s.shadow a with
  | some sh => decide (TTL_MS < ticks_diff now sh.timestamp)
  | none => false

/-- eeprom_write (src/mian.py lines 76-99). The for/else loop's condition
does not depend on the loop index, so it fires at index 0 exactly when a
shadow record exists and is stale; otherwise the else-branch (FIFO) runs. -/
def eeprom_write (s : Sys) (a : Addr) (v : Val) (now : Nat) : Sys :=
  let stale : Bool := shadowStale s a now
  let s1 :=
    if stale then
      { s with
        medium := write_to_eeprom s.medium ((EEPROM_SLOTS a).getD 0 0) 0 v,
        wp := fun x => if x = a then 1 else s.wp x }
    else
      let ptr := s.wp a
      { s with
        medium := write_to_eeprom s.medium ((EEPROM_SLOTS a).getD ptr 0) ptr v,
        wp := fun x => if x = a then (ptr + 1) % 4 else s.wp x }
  { s1 with shadow := fun x => if x = a then some ⟨now, v⟩ else s.shadow x }

/-- Python's `(write_pointers[addr] - 1) % 4`: Python % takes the sign of
the divisor, so wp = 0 gives slot 3 (src/mian.py line 126). -/
def lastWrittenSlot (wp : Nat) : Nat := (((wp : Int) - 1).emod 4).toNat

/-- eeprom_read (src/mian.py lines 116-128): return the shadow value if it
is fresh (strictly less than TTL_MS old), else physically read the slot
`(write_pointers[addr] - 1) % 4`. Every Addr is in NAME_MAP, so the outer
guard always passes. -/
def eeprom_read (s : Sys) (a : Addr) (now : Nat) : Option Val :=
  match s.shadow a with
  | some e =>
    if ticks_diff now e.timestamp < TTL_MS then some e.value
    else read_last_value s.medium (NAME_MAP a) (lastWrittenSlot (s.wp a))
  | none => read_last_value s.medium (NAME_MAP a) (lastWrittenSlot (s.wp a))

/-- read_temperature (src/mian.py lines 60-63), as a function of the raw
DS18B20 reading: the reading is returned only if it is strictly positive,
otherwise None. -/
def read_temperature (raw : Val) : Option Val :=
  if floatGt0 raw then some raw else none

/-- Exceptions reachable inside request_data. -/
inductive PyErr
  | typeErrorPackNone
  | keyErrorShadow
deriving DecidableEq, Repr

/-- The outcome of request_data: the returned (value, source-string,
timestamp) triple, or an uncaught exception. -/
inductive RdRes
  | ok (v : Val) (src : String) (ts : Nat)
  | err (e : PyErr)
deriving DecidableEq, Repr

/-- The sensor-tier tail of request_data (src/mian.py lines 169-174):
`val = read_sensor(addr)` has already produced `sensorVal`. If it is None,
eeprom_write reaches `struct.pack('f', None)` which raises a TypeError
before any state is mutated; otherwise write through to the EEPROM and the
cache and return the value with source "Sensor". -/
def producer_path (s : Sys) (a : Addr) (sensorVal : Option Val) (now : Nat) :
    Sys × RdRes :=
  match sensorVal with
  | none => (s, .err .typeErrorPackNone)
  | some v =>
    let s1 := eeprom_write s a v now
    let s2 := { s1 with cache := update_cache s1.cache a v now }
    (s2, .ok v "Sensor" now)

/-- request_data (src/mian.py lines 151-174). `sensorVal` is the value
read_sensor(addr) would return if the sensor tier is reached. The
store-hit branch returns `eeprom_ttl[addr]["timestamp"]`, which raises a
KeyError when no shadow record exists. -/
def request_data (s : Sys) (a : Addr) (sensorVal : Option Val) (now : Nat) :
    Sys × RdRes :=
  let s1 := { s with total_access := s.total_access + 1 }
  let s2 := { s1 with cache := check_ttl s1.cache a now }
  match cacheLookup s2.cache a with
  | some e =>
    let s3 := { s2 with
      cache := setEntry s2.cache a ⟨e.value, now⟩,
      cache_hits := s2.cache_hits + 1 }
    (s3, .ok e.value "Cache" now)
  | none =>
    match eeprom_read s2 a now with
    | some v =>
      if isNaNb v then producer_path s2 a sensorVal now
      else
        let s3 := { s2 with
          cache := update_cache s2.cache a v now,
          eeprom_hits := s2.eeprom_hits + 1 }
        match s3.shadow a with
        | some sh => (s3, .ok v "EEPROM" sh.timestamp)
        | none => (s3, .err .keyErrorShadow)
    | none => producer_path s2 a sensorVal now

/-- One per-channel iteration of the background sensor_loop body
(src/mian.py lines 178-185): if read_sensor returned a value, write it
through to the EEPROM and the cache; the hit counters are not touched. -/
def sensor_loop_step (s : Sys) (a : Addr) (sensorVal : Option Val) (now : Nat) :
    Sys :=
  match sensorVal with
  | some v =>
    let s1 := eeprom_write s a v now
    { s1 with cache := update_cache s1.cache a v now }
  | none => s

/-- The derived hit-rate percentages computed by the main loop
(src/mian.py lines 230-232). -/
def hit_rate (s : Sys) : ℚ :=
  ((s.cache_hits : ℚ) + (s.eeprom_hits : ℚ)) / (s.total_access : ℚ) * 100

/-- cache_hits_rate (src/mian.py line 231). -/
def cache_hits_rate (s : Sys) : ℚ :=
  (s.cache_hits : ℚ) / (s.total_access : ℚ) * 100

/-- eeprom_hits_rate (src/mian.py line 232). -/
def eeprom_hits_rate (s : Sys) : ℚ :=
  (s.eeprom_hits : ℚ) / (s.total_access : ℚ) * 100

/-- The `Cache.get` step of the foreground path: the TTL expiry check
followed by the cache lookup, returning the stored value
(src/mian.py lines 154-160). -/
def cache_get (c : CacheL) (a : Addr) (now : Nat) : Option Val :=
  match cacheLookup (check_ttl c a now) a with
  | some e => some e.value
  | none => none

/-- An interleaving step: one foreground request or one background
refresh of a single channel. `sv` is what read_sensor(addr) returns at
that step, `now` the clock reading. -/
inductive Op
  | fg (a : Addr) (sv : Option Val) (now : Nat)
  | bg (a : Addr) (sv : Option Val) (now : Nat)
deriving Repr

/-- Execute one step on the shared state. -/
def runOp (s : Sys) : Op → Sys
  | .fg a sv now => (request_data s a sv now).1
  | .bg a sv now => sensor_loop_step s a sv now

/-- Execute a scripted sequence of steps. -/
def run : Sys → List Op → Sys
  | s, [] => s
  | s, o :: ops => run (runOp s o) ops

/-- Number of foreground requests in a scripted sequence. -/
def nReq : Sys → List Op → Nat
  | _, [] => 0
  | s, o :: ops =>
    (match o with | .fg _ _ _ => 1 | .bg _ _ _ => 0) + nReq (runOp s o) ops

/-- Number of foreground requests answered from the cache tier, judged by
the source string request_data actually returns at each step. -/
def nCacheHits : Sys → List Op → Nat
  | _, [] => 0
  | s, o :: ops =>
    (match o with
     | .fg a sv now =>
       match (request_data s a sv now).2 with
       | .ok _ src _ => if src = "Cache" then 1 else 0
       | .err _ => 0
     | .bg _ _ _ => 0) + nCacheHits (runOp s o) ops

/-- Number of foreground requests answered from the EEPROM tier. -/
def nStoreHits : Sys → List Op → Nat
  | _, [] => 0
  | s, o :: ops =>
    (match o with
     | .fg a sv now =>
       match (request_data s a sv now).2 with
       | .ok _ src _ => if src = "EEPROM" then 1 else 0
       | .err _ => 0
     | .bg _ _ _ => 0) + nStoreHits (runOp s o) ops

/-- Every foreground request in the sequence returns a result (no uncaught
exception). -/
def okRunB : Sys → List Op → Bool
  | _, [] => true
  | s, o :: ops =>
    (match o with
     | .fg a sv now =>
       match (request_data s a sv now).2 with
       | .ok _ _ _ => true
       | .err _ => false
     | .bg _ _ _ => true) && okRunB (runOp s o) ops

/-! Lock-discipline model for the two execution flows. Each constructor
records one event of a flow: acquiring or releasing one of the two locks
(the `with cache_lock` / `with eeprom_lock` blocks), or touching the cache
dict or the DurableStore state (medium, write_pointers, eeprom_ttl). The
event lists below transcribe the statement order of src/mian.py. -/

/-- One synchronization-relevant event of a flow. -/
inductive Ev
  | acqCacheLock
  | relCacheLock
  | acqEepromLock
  | relEepromLock
  | cacheAccess
  | storeAccess
deriving DecidableEq, Repr

/-- check_ttl (src/mian.py lines 109-112, called at line 154): reads and
possibly deletes a cache entry; there is no `with cache_lock` around it. -/
def evCheckTTL : List Ev := [.cacheAccess]

/-- The `with cache_lock:` block guarding one cache read/mutation
(src/mian.py lines 156-160, 164-165, 172-173). -/
def evCacheLocked : List Ev := [.acqCacheLock, .cacheAccess, .relCacheLock]

/-- eeprom_read's `with eeprom_lock:` block (src/mian.py lines 118-127). -/
def evEepromRead : List Ev := [.acqEepromLock, .storeAccess, .relEepromLock]

/-- eeprom_write's `with eeprom_lock:` block (src/mian.py lines 77-99). -/
def evEepromWrite : List Ev := [.acqEepromLock, .storeAccess, .relEepromLock]

/-- The events of one request_data call (src/mian.py lines 151-174), by
which tier answers: check_ttl, the locked cache lookup, then on a cache
miss eeprom_read, then on a store miss eeprom_write, each cache write-back
inside its own `with cache_lock` block. -/
def requestEvents (cacheHit storeHit : Bool) : List Ev :=
  evCheckTTL ++ evCacheLocked ++
    (if cacheHit then []
     else evEepromRead ++
       (if storeHit then evCacheLocked else evEepromWrite ++ evCacheLocked))

/-- The events of one sensor_loop body iteration for one channel
(src/mian.py lines 180-184): eeprom_write takes eeprom_lock internally,
but the update_cache call at line 184 is not inside any `with cache_lock`
block. -/
def sensorLoopEvents (hasVal : Bool) : List Ev :=
  if hasVal then evEepromWrite ++ [.cacheAccess] else []

/-- Scan an event list carrying which locks are held; true iff every
cacheAccess happens with cache_lock held and every storeAccess with
eeprom_lock held. -/
def locksOk (c e : Bool) : List Ev → Bool
  | [] => true
  | ev :: rest =>
    match ev with
    | .acqCacheLock => locksOk true e rest
    | .relCacheLock => locksOk false e rest
    | .acqEepromLock => locksOk c true rest
    | .relEepromLock => locksOk c false rest
    | .cacheAccess => c && locksOk c e rest
    | .storeAccess => e && locksOk c e rest

/-! Concrete states used by counterexamples and witnesses. -/

/-- A factory-erased medium: every byte 0xFF. -/
def erasedMedium : Medium := fun _ => 255

/-- The power-on state of src/mian.py: erased EEPROM, write_pointers all 0,
no eeprom_ttl records, empty cache, zeroed counters (lines 46-57, 132). -/
def initSys : Sys :=
  { medium := erasedMedium, wp := fun _ => 0, shadow := fun _ => none,
    cache := [], total_access := 0, cache_hits := 0, eeprom_hits := 0 }

/-- initSys after one committed FIFO write to the TEMP channel:
write_pointers[TEMP] = 1 (the most recent write went to slot 1 next). -/
def exWp1Sys : Sys := { initSys with wp := fun a => if a = .temp then 1 else 0 }

/-- initSys with a stale shadow record for TEMP (written at t=0) and
write_pointers[TEMP] = 3. -/
def exStaleSys : Sys :=
  { initSys with
    wp := fun _ => 3,
    shadow := fun a => if a = .temp then some ⟨0, 5⟩ else none }

/-- A full cache where TEMP is present but MQ2 holds the smallest
last_used. -/
def exFullCache : CacheL := [(.temp, ⟨100, 10⟩), (.mq2, ⟨200, 3⟩)]

/-- A scripted sequence: a producer-answered request, one background
refresh of MQ7, a store-answered request (cache entry expired, shadow
stale, slot 0 still holds the value), then a cache-answered request. -/
def exOps : List Op :=
  [.fg .temp (some 17) 0, .bg .mq7 (some 5) 100,
   .fg .temp none 700, .fg .temp none 750]

/-- A sequence of Cache `put` calls (update_cache) applied in order; each
element carries the channel, the value and the clock reading of the call. -/
def applyPuts : CacheL → List (Addr × Val × Nat) → CacheL
  | c, [] => c
  | c, p :: ps => applyPuts (update_cache c p.1 p.2.1 p.2.2) ps

/-! ## Helper lemmas about the cache association list -/

theorem cacheLookup_setEntry_self (c : CacheL) (a : Addr) (e : CEntry) :
    cacheLookup (setEntry c a e) a = some e := by
  induction c with
  | nil => simp [setEntry, cacheLookup]
  | cons p r ih =>
    obtain ⟨b, e0⟩ := p
    by_cases h : b = a
    · subst h; simp [setEntry, cacheLookup]
    · simp [setEntry, cacheLookup, h, ih]

theorem cacheLookup_setEntry_ne (c : CacheL) (a b : Addr) (e : CEntry)
    (h : b ≠ a) : cacheLookup (setEntry c a e) b = cacheLookup c b := by
  have hab : ¬ a = b := fun hh => h hh.symm
  induction c with
  | nil => simp [setEntry, cacheLookup, hab]
  | cons p r ih =>
    obtain ⟨b0, e0⟩ := p
    by_cases hb : b0 = a
    · subst hb
      simp [setEntry, cacheLookup, hab]
    · simp [setEntry, cacheLookup, hb, ih]

theorem length_setEntry_le (c : CacheL) (a : Addr) (e : CEntry) :
    (setEntry c a e).length ≤ c.length + 1 := by
  induction c with
  | nil => simp [setEntry]
  | cons p r ih =>
    obtain ⟨b, e0⟩ := p
    by_cases h : b = a
    · simp [setEntry, h]
    · simp only [setEntry, if_neg h, List.length_cons]
      omega

theorem length_eraseKey_of_lookup (c : CacheL) (a : Addr) (e : CEntry)
    (h : cacheLookup c a = some e) : (eraseKey c a).length + 1 = c.length := by
  induction c with
  | nil => simp [cacheLookup] at h
  | cons p r ih =>
    obtain ⟨b, e0⟩ := p
    by_cases hb : b = a
    · simp [eraseKey, hb]
    · simp only [cacheLookup, if_neg hb] at h
      simp only [eraseKey, if_neg hb, List.length_cons]
      rw [← ih h]

theorem oldestFold_mem (x : Addr × CEntry) (ys : CacheL) :
    oldestFold x ys ∈ x :: ys := by
  induction ys generalizing x with
  | nil => simp [oldestFold]
  | cons y ys ih =>
    rw [oldestFold]
    have h := ih (if y.2.last_used < x.2.last_used then y else x)
    rcases List.mem_cons.mp h with h1 | h1
    · rw [h1]
      split
      · exact List.mem_cons_of_mem _ (List.mem_cons_self _ _)
      · exact List.mem_cons_self _ _
    · exact List.mem_cons_of_mem _ (List.mem_cons_of_mem _ h1)

theorem lookup_isSome_of_mem (c : CacheL) (p : Addr × CEntry) (h : p ∈ c) :
    (cacheLookup c p.1).isSome := by
  induction c with
  | nil => cases h
  | cons q r ih =>
    obtain ⟨b, e⟩ := q
    rcases List.mem_cons.mp h with h1 | h1
    · subst h1; simp [cacheLookup]
    · by_cases hb : b = p.1
      · simp [cacheLookup, hb]
      · simp only [cacheLookup, if_neg hb]
        exact ih h1

theorem cacheLookup_none_of_not_mem_keys (c : CacheL) (a : Addr)
    (h : a ∉ c.map Prod.fst) : cacheLookup c a = none := by
  induction c with
  | nil => rfl
  | cons q r ih =>
    obtain ⟨b, e⟩ := q
    simp only [List.map_cons, List.mem_cons] at h
    push_neg at h
    rw [cacheLookup, if_neg (fun hh : b = a => h.1 hh.symm)]
    exact ih h.2

theorem cacheLookup_eraseKey_self (c : CacheL) (a : Addr)
    (hnd : (c.map Prod.fst).Nodup) : cacheLookup (eraseKey c a) a = none := by
  induction c with
  | nil => rfl
  | cons q r ih =>
    obtain ⟨b, e⟩ := q
    simp only [List.map_cons, List.nodup_cons] at hnd
    by_cases hb : b = a
    · subst hb
      simp only [eraseKey, if_pos rfl]
      exact cacheLookup_none_of_not_mem_keys r b hnd.1
    · simp only [eraseKey, if_neg hb, cacheLookup, if_neg hb]
      exact ih hnd.2

theorem cacheLookup_update_cache_self (c : CacheL) (a : Addr) (v : Val)
    (now : Nat) : cacheLookup (update_cache c a v now) a = some ⟨v, now⟩ := by
  rw [update_cache]
  exact cacheLookup_setEntry_self _ a ⟨v, now⟩

/-! ## Helper lemmas about the EEPROM medium -/

theorem eeprom_write_bytes_lower (data : List Nat) (m : Medium) (addr x : Nat)
    (h : x < addr) : eeprom_write_bytes m addr data x = m x := by
  induction data generalizing m addr with
  | nil => rfl
  | cons b rest ih =>
    rw [eeprom_write_bytes, ih _ _ (by omega)]
    simp [writeByte, Nat.ne_of_lt h]

theorem read4_write4 (m : Medium) (addr b0 b1 b2 b3 : Nat) :
    read4 (eeprom_write_bytes m addr [b0, b1, b2, b3]) addr = [b0, b1, b2, b3] := by
  simp only [eeprom_write_bytes, read4, writeByte, List.cons.injEq, and_true]
  refine ⟨?_, ?_, ?_, ?_⟩ <;> (split_ifs <;> omega)

theorem read4_write_to_eeprom (m : Medium) (p o : Nat) (v : Val) :
    read4 (write_to_eeprom m p o v) (p * PAGE_SIZE + o) = pack v := by
  rw [write_to_eeprom, pack]
  exact read4_write4 m _ _ _ _ _

/-! ## Claim theorems -/

/-- Claim C1: the claim says a foreground request whose producer returns
absent fails with Unavailable and writes nothing. The code instead passes
None on to eeprom_write, where struct.pack('f', None) raises an uncaught
TypeError (there is no Unavailable result anywhere in request_data): at the
power-on state with the TEMP producer absent, the request ends in the
TypeError, the cache, shadow records, write pointers and medium are
unchanged, and total_access has already been incremented. -/
theorem c1_producer_none_raises_not_unavailable :
    (request_data initSys .temp none 1000).2 = .err .typeErrorPackNone
    ∧ (request_data initSys .temp none 1000).1.cache = initSys.cache
    ∧ (request_data initSys .temp none 1000).1.shadow = initSys.shadow
    ∧ (request_data initSys .temp none 1000).1.wp = initSys.wp
    ∧ (request_data initSys .temp none 1000).1.medium = initSys.medium
    ∧ (request_data initSys .temp none 1000).1.total_access
        = initSys.total_access + 1 :=
  ⟨by decide, rfl, rfl, rfl, rfl, rfl⟩

/-- Claim C2: the claim says the physical address eeprom_read reads equals
the physical address the most recent eeprom_write wrote. For the TEMP
channel with the most recent write in slot 1, the write lands at byte
address `EEPROM_SLOTS[TEMP][1] * 32 + 1 = 2721` while the read fetches
`84 * 32 + 1 * 4 = 2692`: the addresses differ, and concretely a FIFO
write of 1.0f (bits 0x3F800000) at slot 1 followed by a stale-shadow read
returns none instead of the written value. -/
theorem c2_read_addr_mismatches_write_addr :
    writeSlotAddr .temp 1 = 2721
    ∧ readSlotAddr .temp 1 = 2692
    ∧ writeSlotAddr .temp 1 ≠ readSlotAddr .temp 1
    ∧ (eeprom_write exWp1Sys .temp 1065353216 100).wp .temp = 2
    ∧ eeprom_read (eeprom_write exWp1Sys .temp 1065353216 100) .temp 800
        = none :=
  ⟨rfl, rfl, by decide, by decide, by decide⟩

/-- Claim C5: starting from the empty cache, no sequence of update_cache
calls ever leaves more than CACHE_SIZE entries in the cache. -/
theorem c5_cache_capacity_invariant (ops : List (Addr × Val × Nat)) :
    (applyPuts [] ops).length ≤ CACHE_SIZE := by
  have step : ∀ (c : CacheL) (a : Addr) (v : Val) (now : Nat),
      c.length ≤ CACHE_SIZE → (update_cache c a v now).length ≤ CACHE_SIZE := by
    intro c a v now h
    rw [update_cache]
    by_cases hlen : CACHE_SIZE ≤ c.length
    · have hcl : c.length = CACHE_SIZE := le_antisymm h hlen
      match c, hcl with
      | x :: xs, hcl =>
        rw [if_pos hlen, oldestItem]
        show (setEntry (eraseKey (x :: xs) (oldestFold x xs).1) a
          ⟨v, now⟩).length ≤ CACHE_SIZE
        have hmem := oldestFold_mem x xs
        have hsome := lookup_isSome_of_mem (x :: xs) _ hmem
        obtain ⟨e, he⟩ := Option.isSome_iff_exists.mp hsome
        have hlen2 := length_eraseKey_of_lookup (x :: xs) _ e he
        have hle := length_setEntry_le (eraseKey (x :: xs) (oldestFold x xs).1)
          a ⟨v, now⟩
        omega
    · rw [if_neg hlen]
      have hle := length_setEntry_le c a ⟨v, now⟩
      omega
  have main : ∀ (ops : List (Addr × Val × Nat)) (c : CacheL),
      c.length ≤ CACHE_SIZE → (applyPuts c ops).length ≤ CACHE_SIZE := by
    intro ops
    induction ops with
    | nil => intro c h; exact h
    | cons p ps ih =>
      intro c h
      exact ih _ (step c p.1 p.2.1 p.2.2 h)
  exact main ops [] (by simp [CACHE_SIZE])

/-- Claim C6, counterexample: in a full cache where TEMP is present and MQ2
holds the smallest last_used, a put for the already-present TEMP channel
evicts MQ2's entry — contradicting the claim that a put for a present
channel removes no other channel's entry. -/
theorem c6_cex_put_present_evicts_other :
    (cacheLookup exFullCache .temp).isSome = true
    ∧ (cacheLookup exFullCache .mq2).isSome = true
    ∧ exFullCache.length = CACHE_SIZE
    ∧ cacheLookup (update_cache exFullCache .temp 7 20) .mq2 = none := by
  decide

/-- Claim C6 as amended: update_cache always installs the entry for the
given channel with last_used = now; when the cache holds fewer than
CACHE_SIZE entries nothing else changes; but whenever it already holds at
least CACHE_SIZE entries the min-last_used entry is evicted regardless of
whether the given channel is already present. -/
theorem c6_put_eviction_amended (c : CacheL) (a : Addr) (v : Val) (now : Nat)
    (hnd : (c.map Prod.fst).Nodup) :
    cacheLookup (update_cache c a v now) a = some ⟨v, now⟩
    ∧ (c.length < CACHE_SIZE → ∀ b : Addr, b ≠ a →
        cacheLookup (update_cache c a v now) b = cacheLookup c b)
    ∧ (CACHE_SIZE ≤ c.length → ∀ o : Addr × CEntry, oldestItem c = some o →
        o.1 ≠ a → cacheLookup (update_cache c a v now) o.1 = none) := by
  refine ⟨cacheLookup_update_cache_self c a v now, ?_, ?_⟩
  · intro hlt b hb
    rw [update_cache, if_neg (by omega)]
    exact cacheLookup_setEntry_ne c a b ⟨v, now⟩ hb
  · intro hge o ho hne
    rw [update_cache, if_pos hge, ho]
    rw [cacheLookup_setEntry_ne _ a o.1 ⟨v, now⟩ hne]
    exact cacheLookup_eraseKey_self c o.1 hnd

/-- Witness for the amended C6 at the concrete full cache. -/
theorem c6_witness :
    (exFullCache.map Prod.fst).Nodup
    ∧ (cacheLookup (update_cache exFullCache .temp 7 20) .temp = some ⟨7, 20⟩
    ∧ (exFullCache.length < CACHE_SIZE → ∀ b : Addr, b ≠ .temp →
        cacheLookup (update_cache exFullCache .temp 7 20) b
          = cacheLookup exFullCache b)
    ∧ (CACHE_SIZE ≤ exFullCache.length → ∀ o : Addr × CEntry,
        oldestItem exFullCache = some o → o.1 ≠ .temp →
        cacheLookup (update_cache exFullCache .temp 7 20) o.1 = none)) :=
  ⟨by decide, c6_put_eviction_amended exFullCache .temp 7 20 (by decide)⟩

/-- Claim C7, counterexample: the TEMP producer wrapper read_temperature
maps a raw reading of exactly zero to None, so a request that falls
through to the producer does not return (0.0, Sensor, _): it ends in the
TypeError raised on packing None. -/
theorem c7_cex_zero_temp_reading_absent :
    read_temperature 0 = none
    ∧ (request_data initSys .temp (read_temperature 0) 50).2
        ≠ .ok 0 "Sensor" 50
    ∧ (request_data initSys .temp (read_temperature 0) 50).2
        = .err .typeErrorPackNone := by
  decide

/-- Claim C9: the claim says every cache access of both flows runs under
cache_lock and every store access under eeprom_lock. Transcribing the
lock-acquisition structure of src/mian.py, the discipline fails on both
flows: the foreground path's TTL expiry check (check_ttl at line 154) and
the background path's update_cache call (line 184) touch the cache with no
lock held, on every branch of the request path. -/
theorem c9_unlocked_cache_accesses :
    locksOk false false (requestEvents false false) = false
    ∧ locksOk false false (requestEvents false true) = false
    ∧ locksOk false false (requestEvents true false) = false
    ∧ locksOk false false (sensorLoopEvents true) = false := by
  decide

/-- eeprom_write when the shadow record is stale: write into slot 0
(page EEPROM_SLOTS[a][0], byte offset 0), set the write pointer to 1,
overwrite the shadow record. -/
theorem eeprom_write_stale_eq (s : Sys) (a : Addr) (v : Val) (now : Nat)
    (hst : shadowStale s a now = true) :
    eeprom_write s a v now =
      { s with
        medium := write_to_eeprom s.medium ((EEPROM_SLOTS a).getD 0 0) 0 v,
        wp := fun x => if x = a then 1 else s.wp x,
        shadow := fun x => if x = a then some ⟨now, v⟩ else s.shadow x } := by
  simp [eeprom_write, hst]

/-- eeprom_write when the shadow record is fresh or absent: FIFO write at
the current write pointer, advance it modulo 4, overwrite the shadow
record. -/
theorem eeprom_write_fresh_eq (s : Sys) (a : Addr) (v : Val) (now : Nat)
    (hfr : shadowStale s a now = false) :
    eeprom_write s a v now =
      { s with
        medium := write_to_eeprom s.medium
          ((EEPROM_SLOTS a).getD (s.wp a) 0) (s.wp a) v,
        wp := fun x => if x = a then (s.wp a + 1) % 4 else s.wp x,
        shadow := fun x => if x = a then some ⟨now, v⟩ else s.shadow x } := by
  simp [eeprom_write, hfr]

/-- Claim C3: eeprom_write overwrites the shadow record with
{timestamp: now, value} in every case; when the shadow record is stale
(exists and older than TTL_MS) the value's packed bytes land in slot 0 and
the write pointer becomes 1 regardless of its prior value; otherwise the
bytes land in the slot at the current write pointer and the pointer
advances by 1 modulo the slot count 4. -/
theorem c3_durable_write_policy (s : Sys) (a : Addr) (v : Val) (now : Nat)
    (_hwp : s.wp a < 4) :
    (eeprom_write s a v now).shadow a = some ⟨now, v⟩
    ∧ (shadowStale s a now = true →
        (eeprom_write s a v now).wp a = 1
        ∧ read4 (eeprom_write s a v now).medium (writeSlotAddr a 0) = pack v)
    ∧ (shadowStale s a now = false →
        (eeprom_write s a v now).wp a = (s.wp a + 1) % 4
        ∧ read4 (eeprom_write s a v now).medium (writeSlotAddr a (s.wp a))
            = pack v) := by
  refine ⟨?_, ?_, ?_⟩
  · simp [eeprom_write]
  · intro hst
    rw [eeprom_write_stale_eq s a v now hst]
    refine ⟨by simp, ?_⟩
    rw [writeSlotAddr]
    exact read4_write_to_eeprom s.medium _ 0 v
  · intro hfr
    rw [eeprom_write_fresh_eq s a v now hfr]
    refine ⟨by simp, ?_⟩
    rw [writeSlotAddr]
    exact read4_write_to_eeprom s.medium _ (s.wp a) v

/-- eeprom_write leaves the cache and the three counters untouched. -/
theorem eeprom_write_proj (s : Sys) (a : Addr) (v : Val) (now : Nat) :
    (eeprom_write s a v now).cache = s.cache
    ∧ (eeprom_write s a v now).total_access = s.total_access
    ∧ (eeprom_write s a v now).cache_hits = s.cache_hits
    ∧ (eeprom_write s a v now).eeprom_hits = s.eeprom_hits := by
  refine ⟨?_, ?_, ?_, ?_⟩ <;> (simp only [eeprom_write]; split <;> rfl)

/-- eeprom_write installs the new shadow record for the written channel. -/
theorem eeprom_write_shadow_self (s : Sys) (a : Addr) (v : Val) (now : Nat) :
    (eeprom_write s a v now).shadow a = some ⟨now, v⟩ := by
  simp [eeprom_write]

/-- Reading back slot 0 right after a slot-0 write: the read path's address
`base_page * 32 + 0 * 4` coincides with the write path's address
`EEPROM_SLOTS[a][0] * 32 + 0` (only slot 0 has this property), so the read
sees exactly the packed bytes, filtered through the sentinel test. -/
theorem read_last_value_after_slot0_write (m : Medium) (a : Addr) (v : Val) :
    read_last_value (write_to_eeprom m ((EEPROM_SLOTS a).getD 0 0) 0 v)
      (NAME_MAP a) 0 =
    (if pack v = [255, 255, 255, 255] ∨ pack v = [0, 0, 0, 0] then none
     else some (unpack (pack v))) := by
  cases a with
  | temp =>
    have h := read4_write_to_eeprom m 84 0 v
    simp only [Nat.zero_mul, Nat.add_zero] at h
    show read_last_value (write_to_eeprom m 84 0 v) "TEMP" 0 = _
    have hbp : basePageOf "TEMP" = some 84 := by decide
    simp only [read_last_value, hbp, Nat.zero_mul, Nat.add_zero, h]
  | mq2 =>
    have h := read4_write_to_eeprom m 0 0 v
    simp only [Nat.zero_mul, Nat.add_zero] at h
    show read_last_value (write_to_eeprom m 0 0 v) "MQII" 0 = _
    have hbp : basePageOf "MQII" = some 0 := by decide
    simp only [read_last_value, hbp, Nat.zero_mul, Nat.add_zero, h]
  | mq7 =>
    have h := read4_write_to_eeprom m 42 0 v
    simp only [Nat.zero_mul, Nat.add_zero] at h
    show read_last_value (write_to_eeprom m 42 0 v) "MQIV" 0 = _
    have hbp : basePageOf "MQIV" = some 42 := by decide
    simp only [read_last_value, hbp, Nat.zero_mul, Nat.add_zero, h]

/-- Claim C10: struct.pack('f', 0.0) is exactly the all-zero byte pattern
that the read path interprets as the "cleared" sentinel, so after a
stale-shadow (recycle-to-slot-0) write of 0.0, a later read that takes the
physical-slot path (shadow stale again) returns absent, not 0.0. -/
theorem c10_zero_write_reads_absent (s : Sys) (a : Addr) (now nowR : Nat)
    (hst : shadowStale s a now = true)
    (hrd : ¬ ticks_diff nowR now < TTL_MS) :
    pack 0 = [0, 0, 0, 0]
    ∧ eeprom_read (eeprom_write s a 0 now) a nowR = none := by
  refine ⟨rfl, ?_⟩
  rw [eeprom_write_stale_eq s a 0 now hst]
  have hl : lastWrittenSlot 1 = 0 := rfl
  simp [eeprom_read, hl, hrd, read_last_value_after_slot0_write, pack,
    -List.getD_eq_getElem?_getD]

/-- Witness for C10 at a concrete stale-shadow state. -/
theorem c10_witness :
    shadowStale exStaleSys .temp 700 = true
    ∧ ¬ ticks_diff 1400 700 < TTL_MS
    ∧ (pack 0 = [0, 0, 0, 0]
      ∧ eeprom_read (eeprom_write exStaleSys .temp 0 700) .temp 1400 = none) :=
  ⟨by decide, by decide,
    c10_zero_write_reads_absent exStaleSys .temp 700 1400 (by decide) (by decide)⟩

/-- request_data on a cache hit. -/
theorem request_data_cache_hit_eq (s : Sys) (a : Addr) (sv : Option Val)
    (now : Nat) (e : CEntry)
    (hh : cacheLookup (check_ttl s.cache a now) a = some e) :
    request_data s a sv now =
      ({ s with total_access := s.total_access + 1,
                cache := setEntry (check_ttl s.cache a now) a ⟨e.value, now⟩,
                cache_hits := s.cache_hits + 1 },
       .ok e.value "Cache" now) := by
  simp only [request_data, hh]

/-- request_data on a cache miss answered by the durable tier while a
shadow record exists (the timestamp the code returns). -/
theorem request_data_store_hit_eq (s : Sys) (a : Addr) (sv : Option Val)
    (now : Nat) (v : Val) (sh : Shadow)
    (hm : cacheLookup (check_ttl s.cache a now) a = none)
    (he : eeprom_read s a now = some v) (hnn : isNaNb v = false)
    (hsh : s.shadow a = some sh) :
    request_data s a sv now =
      ({ s with total_access := s.total_access + 1,
                cache := update_cache (check_ttl s.cache a now) a v now,
                eeprom_hits := s.eeprom_hits + 1 },
       .ok v "EEPROM" sh.timestamp) := by
  have he2 : eeprom_read
      { s with total_access := s.total_access + 1,
               cache := check_ttl s.cache a now } a now = some v := he
  simp only [request_data, hm, he2, hnn]
  simp [hsh]

/-- request_data on a store hit with no shadow record: the returned
`eeprom_ttl[addr]["timestamp"]` raises a KeyError (after eeprom_hits was
already incremented). -/
theorem request_data_store_keyerr_eq (s : Sys) (a : Addr) (sv : Option Val)
    (now : Nat) (v : Val)
    (hm : cacheLookup (check_ttl s.cache a now) a = none)
    (he : eeprom_read s a now = some v) (hnn : isNaNb v = false)
    (hsh : s.shadow a = none) :
    request_data s a sv now =
      ({ s with total_access := s.total_access + 1,
                cache := update_cache (check_ttl s.cache a now) a v now,
                eeprom_hits := s.eeprom_hits + 1 },
       .err .keyErrorShadow) := by
  have he2 : eeprom_read
      { s with total_access := s.total_access + 1,
               cache := check_ttl s.cache a now } a now = some v := he
  simp only [request_data, hm, he2, hnn]
  simp [hsh]

/-- request_data under a cache miss and a store miss: the sensor tier runs
on the state with total_access bumped and the TTL check applied. -/
theorem request_data_sensor_eq (s : Sys) (a : Addr) (sv : Option Val)
    (now : Nat)
    (hm : cacheLookup (check_ttl s.cache a now) a = none)
    (hsm : eeprom_read s a now = none) :
    request_data s a sv now =
      producer_path { s with total_access := s.total_access + 1,
                             cache := check_ttl s.cache a now } a sv now := by
  have hsm2 : eeprom_read
      { s with total_access := s.total_access + 1,
               cache := check_ttl s.cache a now } a now = none := hsm
  simp only [request_data, hm, hsm2]

/-- request_data under a cache miss with a NaN-decoding store value: also
falls through to the sensor tier. -/
theorem request_data_sensor_nan_eq (s : Sys) (a : Addr) (sv : Option Val)
    (now : Nat) (v : Val)
    (hm : cacheLookup (check_ttl s.cache a now) a = none)
    (he : eeprom_read s a now = some v) (hnan : isNaNb v = true) :
    request_data s a sv now =
      producer_path { s with total_access := s.total_access + 1,
                             cache := check_ttl s.cache a now } a sv now := by
  have he2 : eeprom_read
      { s with total_access := s.total_access + 1,
               cache := check_ttl s.cache a now } a now = some v := he
  simp only [request_data, hm, he2, hnan]
  simp

/-- The `Cache.get` sequence right after update_cache at the same instant
returns the freshly written value (the entry is not expired: elapsed 0). -/
theorem cache_get_update_cache (c : CacheL) (a : Addr) (w : Val) (now : Nat) :
    cache_get (update_cache c a w now) a now = some w := by
  have h1 := cacheLookup_update_cache_self c a w now
  simp [cache_get, check_ttl, h1, ticks_diff, TTL_MS]

/-- The sensor tier writes through: right after a successful producer
answer, the durable tier (via the fresh shadow record) and the cache both
return the produced value. -/
theorem producer_path_write_through (L : Sys) (a : Addr) (sv : Option Val)
    (now : Nat) (v : Val) (ts : Nat)
    (h : (producer_path L a sv now).2 = .ok v "Sensor" ts) :
    eeprom_read (producer_path L a sv now).1 a now = some v
    ∧ cache_get (producer_path L a sv now).1.cache a now = some v := by
  cases sv with
  | none => exact RdRes.noConfusion h
  | some w =>
    have h2 : RdRes.ok w "Sensor" now = RdRes.ok v "Sensor" ts := h
    rw [RdRes.ok.injEq] at h2
    obtain ⟨hv, -, -⟩ := h2
    subst hv
    constructor
    · have hsh := eeprom_write_shadow_self L a w now
      show eeprom_read
        { eeprom_write L a w now with
          cache := update_cache (eeprom_write L a w now).cache a w now } a now
        = some w
      simp [eeprom_read, hsh, ticks_diff, TTL_MS]
    · exact cache_get_update_cache _ a w now

/-- Claim C4: whenever request_data answers from the sensor tier
(source "Sensor", i.e. Source::Producer), an immediate durable-store read
returns the same value (through the fresh shadow record) and an immediate
Cache.get returns the same value (write-through correctness). -/
theorem c4_write_through (s : Sys) (a : Addr) (sv : Option Val) (now : Nat)
    (v : Val) (ts : Nat)
    (h : (request_data s a sv now).2 = .ok v "Sensor" ts) :
    eeprom_read (request_data s a sv now).1 a now = some v
    ∧ cache_get (request_data s a sv now).1.cache a now = some v := by
  cases hc : cacheLookup (check_ttl s.cache a now) a with
  | some e =>
    rw [request_data_cache_hit_eq s a sv now e hc] at h
    rw [RdRes.ok.injEq] at h
    exact absurd h.2.1 (by decide)
  | none =>
    cases he : eeprom_read s a now with
    | some w =>
      cases hnn : isNaNb w with
      | false =>
        cases hsh : s.shadow a with
        | some sh =>
          rw [request_data_store_hit_eq s a sv now w sh hc he hnn hsh] at h
          rw [RdRes.ok.injEq] at h
          exact absurd h.2.1 (by decide)
        | none =>
          rw [request_data_store_keyerr_eq s a sv now w hc he hnn hsh] at h
          exact RdRes.noConfusion h
      | true =>
        rw [request_data_sensor_nan_eq s a sv now w hc he hnn] at h ⊢
        exact producer_path_write_through _ a sv now v ts h
    | none =>
      rw [request_data_sensor_eq s a sv now hc he] at h ⊢
      exact producer_path_write_through _ a sv now v ts h

/-- Witness for C4: producer-answered request at the power-on state. -/
theorem c4_witness :
    (request_data initSys .temp (some 17) 5).2 = .ok 17 "Sensor" 5
    ∧ (eeprom_read (request_data initSys .temp (some 17) 5).1 .temp 5 = some 17
      ∧ cache_get (request_data initSys .temp (some 17) 5).1.cache .temp 5
          = some 17) :=
  ⟨by decide, c4_write_through initSys .temp (some 17) 5 17 5 (by decide)⟩

/-- Claim C7 as amended: at the controller level a producer value of
exactly 0.0 is valid data — on a cache and store miss, request_data
returns (0.0, "Sensor", now) and writes 0.0 through to the shadow record
and the cache; but the TEMP producer wrapper read_temperature maps a raw
reading of exactly zero to None (its guard is `> 0`), so for the TEMP
channel a zero reading never reaches the controller as data. -/
theorem c7_zero_valid_amended (s : Sys) (a : Addr) (now : Nat)
    (hmiss : cacheLookup (check_ttl s.cache a now) a = none)
    (hstore : eeprom_read s a now = none) :
    (request_data s a (some 0) now).2 = .ok 0 "Sensor" now
    ∧ (request_data s a (some 0) now).1.shadow a = some ⟨now, 0⟩
    ∧ cacheLookup (request_data s a (some 0) now).1.cache a = some ⟨0, now⟩
    ∧ read_temperature 0 = none := by
  rw [request_data_sensor_eq s a (some 0) now hmiss hstore]
  exact ⟨rfl, eeprom_write_shadow_self _ a 0 now,
         cacheLookup_update_cache_self _ a 0 now, rfl⟩

/-- Witness for the amended C7 at the power-on state on the MQ2 channel. -/
theorem c7_witness :
    cacheLookup (check_ttl initSys.cache .mq2 77) .mq2 = none
    ∧ eeprom_read initSys .mq2 77 = none
    ∧ ((request_data initSys .mq2 (some 0) 77).2 = .ok 0 "Sensor" 77
      ∧ (request_data initSys .mq2 (some 0) 77).1.shadow .mq2 = some ⟨77, 0⟩
      ∧ cacheLookup (request_data initSys .mq2 (some 0) 77).1.cache .mq2
          = some ⟨0, 77⟩
      ∧ read_temperature 0 = none) :=
  ⟨by decide, by decide,
    c7_zero_valid_amended initSys .mq2 77 (by decide) (by decide)⟩

/-- producer_path either answers with source "Sensor" leaving all three
counters unchanged, or raises on a None sensor value leaving the whole
state unchanged. -/
theorem producer_path_step_counters (L : Sys) (a : Addr) (sv : Option Val)
    (now : Nat) :
    (∃ w, sv = some w ∧ (producer_path L a sv now).2 = .ok w "Sensor" now
      ∧ (producer_path L a sv now).1.total_access = L.total_access
      ∧ (producer_path L a sv now).1.cache_hits = L.cache_hits
      ∧ (producer_path L a sv now).1.eeprom_hits = L.eeprom_hits)
    ∨ (sv = none ∧ (producer_path L a sv now).2 = .err .typeErrorPackNone
      ∧ (producer_path L a sv now).1 = L) := by
  cases sv with
  | none => exact Or.inr ⟨rfl, rfl, rfl⟩
  | some w =>
    have hp := eeprom_write_proj L a w now
    exact Or.inl ⟨w, rfl, rfl, hp.2.1, hp.2.2.1, hp.2.2.2⟩

/-- Each request_data call either returns (v, src, ts) having incremented
total_access exactly once and the hit counter matching src exactly once
(none for "Sensor"), or ends in an exception. -/
theorem request_data_step_counters (s : Sys) (a : Addr) (sv : Option Val)
    (now : Nat) :
    (∃ v src ts, (request_data s a sv now).2 = .ok v src ts
      ∧ (request_data s a sv now).1.total_access = s.total_access + 1
      ∧ (request_data s a sv now).1.cache_hits
          = s.cache_hits + (if src = "Cache" then 1 else 0)
      ∧ (request_data s a sv now).1.eeprom_hits
          = s.eeprom_hits + (if src = "EEPROM" then 1 else 0))
    ∨ (∃ e, (request_data s a sv now).2 = .err e) := by
  cases hc : cacheLookup (check_ttl s.cache a now) a with
  | some e =>
    rw [request_data_cache_hit_eq s a sv now e hc]
    refine Or.inl ⟨e.value, "Cache", now, rfl, rfl, ?_, ?_⟩
    · rw [show (if ("Cache" : String) = "Cache" then 1 else 0) = 1 from by decide]
    · rw [show (if ("Cache" : String) = "EEPROM" then 1 else 0) = 0 from by decide]
      rfl
  | none =>
    cases he : eeprom_read s a now with
    | some w =>
      cases hnn : isNaNb w with
      | false =>
        cases hsh : s.shadow a with
        | some sh =>
          rw [request_data_store_hit_eq s a sv now w sh hc he hnn hsh]
          refine Or.inl ⟨w, "EEPROM", sh.timestamp, rfl, rfl, ?_, ?_⟩
          · rw [show (if ("EEPROM" : String) = "Cache" then 1 else 0) = 0
              from by decide]
            rfl
          · rw [show (if ("EEPROM" : String) = "EEPROM" then 1 else 0) = 1
              from by decide]
        | none =>
          rw [request_data_store_keyerr_eq s a sv now w hc he hnn hsh]
          exact Or.inr ⟨.keyErrorShadow, rfl⟩
      | true =>
        rw [request_data_sensor_nan_eq s a sv now w hc he hnn]
        rcases producer_path_step_counters
            { s with total_access := s.total_access + 1,
                     cache := check_ttl s.cache a now } a sv now with
          ⟨w2, hsv, h2, h3, h4, h5⟩ | ⟨hsv, h2, h3⟩
        · refine Or.inl ⟨w2, "Sensor", now, h2, h3, ?_, ?_⟩
          · rw [show (if ("Sensor" : String) = "Cache" then 1 else 0) = 0
              from by decide]
            exact h4
          · rw [show (if ("Sensor" : String) = "EEPROM" then 1 else 0) = 0
              from by decide]
            exact h5
        · exact Or.inr ⟨.typeErrorPackNone, h2⟩
    | none =>
      rw [request_data_sensor_eq s a sv now hc he]
      rcases producer_path_step_counters
          { s with total_access := s.total_access + 1,
                   cache := check_ttl s.cache a now } a sv now with
        ⟨w2, hsv, h2, h3, h4, h5⟩ | ⟨hsv, h2, h3⟩
      · refine Or.inl ⟨w2, "Sensor", now, h2, h3, ?_, ?_⟩
        · rw [show (if ("Sensor" : String) = "Cache" then 1 else 0) = 0
            from by decide]
          exact h4
        · rw [show (if ("Sensor" : String) = "EEPROM" then 1 else 0) = 0
            from by decide]
          exact h5
      · exact Or.inr ⟨.typeErrorPackNone, h2⟩

/-- One background refresh iteration never touches any counter. -/
theorem sensor_loop_step_counters (s : Sys) (a : Addr) (sv : Option Val)
    (now : Nat) :
    (sensor_loop_step s a sv now).total_access = s.total_access
    ∧ (sensor_loop_step s a sv now).cache_hits = s.cache_hits
    ∧ (sensor_loop_step s a sv now).eeprom_hits = s.eeprom_hits := by
  cases sv with
  | none => exact ⟨rfl, rfl, rfl⟩
  | some w =>
    have hp := eeprom_write_proj s a w now
    exact ⟨hp.2.1, hp.2.2.1, hp.2.2.2⟩

/-- Over any scripted interleaving whose foreground requests all succeed,
the counters advance by exactly the observed per-source tallies. -/
theorem run_counters (ops : List Op) (s : Sys) (hok : okRunB s ops = true) :
    (run s ops).total_access = s.total_access + nReq s ops
    ∧ (run s ops).cache_hits = s.cache_hits + nCacheHits s ops
    ∧ (run s ops).eeprom_hits = s.eeprom_hits + nStoreHits s ops := by
  induction ops generalizing s with
  | nil => exact ⟨rfl, rfl, rfl⟩
  | cons o ops ih =>
    cases o with
    | fg a sv now =>
      simp only [okRunB, Bool.and_eq_true] at hok
      rcases request_data_step_counters s a sv now with
        ⟨v, src, ts, h2, ht, hch, heh⟩ | ⟨e, h2⟩
      · have hok2 : okRunB (runOp s (.fg a sv now)) ops = true := hok.2
        have hrec := ih (runOp s (.fg a sv now)) hok2
        simp only [runOp] at hrec
        simp only [run, runOp, nReq, nCacheHits, nStoreHits, h2]
        obtain ⟨r1, r2, r3⟩ := hrec
        refine ⟨by omega, by omega, by omega⟩
      · rw [h2] at hok
        simp at hok
    | bg a sv now =>
      simp only [okRunB, Bool.true_and] at hok
      have hs := sensor_loop_step_counters s a sv now
      have hrec := ih (sensor_loop_step s a sv now) hok
      simp only [run, runOp, nReq, nCacheHits, nStoreHits]
      obtain ⟨r1, r2, r3⟩ := hrec
      obtain ⟨q1, q2, q3⟩ := hs
      refine ⟨by omega, by omega, by omega⟩

/-- Claim C8: for every scripted sequence of foreground requests (all
succeeding) interleaved with any number of background refreshes, starting
from zeroed counters, total_access equals the number of requests N,
cache_hits equals the number H1 answered from the cache, eeprom_hits
equals the number H2 answered from the store (refreshes increment
nothing), and the reported percentage rates are H1/N * 100 and
(H1+H2)/N * 100. -/
theorem c8_hit_rate_accounting (s0 : Sys) (ops : List Op)
    (h0 : s0.total_access = 0) (h1 : s0.cache_hits = 0)
    (h2 : s0.eeprom_hits = 0) (hok : okRunB s0 ops = true) :
    (run s0 ops).total_access = nReq s0 ops
    ∧ (run s0 ops).cache_hits = nCacheHits s0 ops
    ∧ (run s0 ops).eeprom_hits = nStoreHits s0 ops
    ∧ cache_hits_rate (run s0 ops)
        = (nCacheHits s0 ops : ℚ) / (nReq s0 ops : ℚ) * 100
    ∧ hit_rate (run s0 ops)
        = ((nCacheHits s0 ops : ℚ) + (nStoreHits s0 ops : ℚ))
            / (nReq s0 ops : ℚ) * 100 := by
  obtain ⟨ht, hc, he⟩ := run_counters ops s0 hok
  rw [h0, Nat.zero_add] at ht
  rw [h1, Nat.zero_add] at hc
  rw [h2, Nat.zero_add] at he
  refine ⟨ht, hc, he, ?_, ?_⟩
  · rw [cache_hits_rate, ht, hc]
  · rw [hit_rate, ht, hc, he]

/-- Witness for C8 on a concrete scripted sequence: three requests
(producer, store, cache — the middle one interleaved with a background
refresh of MQ7), N = 3, H1 = 1, H2 = 1. -/
theorem c8_witness :
    (initSys.total_access = 0 ∧ initSys.cache_hits = 0
      ∧ initSys.eeprom_hits = 0 ∧ okRunB initSys exOps = true
      ∧ nReq initSys exOps = 3 ∧ nCacheHits initSys exOps = 1
      ∧ nStoreHits initSys exOps = 1)
    ∧ ((run initSys exOps).total_access = nReq initSys exOps
      ∧ (run initSys exOps).cache_hits = nCacheHits initSys exOps
      ∧ (run initSys exOps).eeprom_hits = nStoreHits initSys exOps
      ∧ cache_hits_rate (run initSys exOps)
          = (nCacheHits initSys exOps : ℚ) / (nReq initSys exOps : ℚ) * 100
      ∧ hit_rate (run initSys exOps)
          = ((nCacheHits initSys exOps : ℚ) + (nStoreHits initSys exOps : ℚ))
              / (nReq initSys exOps : ℚ) * 100) :=
  ⟨⟨rfl, rfl, rfl, by decide, by decide, by decide, by decide⟩,
   c8_hit_rate_accounting initSys exOps rfl rfl rfl (by decide)⟩

/-- Witness for C3 at a concrete stale-shadow state. -/
theorem c3_witness :
    exStaleSys.wp .temp < 4
    ∧ ((eeprom_write exStaleSys .temp 9 700).shadow .temp = some ⟨700, 9⟩
    ∧ (shadowStale exStaleSys .temp 700 = true →
        (eeprom_write exStaleSys .temp 9 700).wp .temp = 1
        ∧ read4 (eeprom_write exStaleSys .temp 9 700).medium
            (writeSlotAddr .temp 0) = pack 9)
    ∧ (shadowStale exStaleSys .temp 700 = false →
        (eeprom_write exStaleSys .temp 9 700).wp .temp
          = (exStaleSys.wp .temp + 1) % 4
        ∧ read4 (eeprom_write exStaleSys .temp 9 700).medium
            (writeSlotAddr .temp (exStaleSys.wp .temp)) = pack 9)) :=
  ⟨by decide, c3_durable_write_policy exStaleSys .temp 9 700 (by decide)⟩

end PicoH
